import Mathlib

/-!
Formal model of `src/packages/ai-chat-components/src/components/auth.ts`,
a Lit web component (`azc-auth`) that renders a login/logout widget for a
platform-managed authentication service.  The TypeScript source is embedded
shallowly: the component instance is a Lean structure, browser state
(`window.location.href`) is threaded explicitly through a `Window` record,
the asynchronous `/.auth/me` fetch performed by the constructor is modelled
by a `FetchResult` input, and the three lit-html render branches are values
of an `Html` syntax tree whose click handlers are `ClickAction` values.
-/

/-! ### Route constants (lines 10-12 of the source) -/

def loginRoute : String := "/.auth/login"

def logoutRoute : String := "/.auth/logout"

def userDetailsRoute : String := "/.auth/me"

/-! ### encodeURIComponent

Model of the ECMAScript builtin `encodeURIComponent`: characters in the
unreserved set `A-Z a-z 0-9 - _ . ! ~ * ( )` and the apostrophe are kept,
every other character is percent-encoded byte-by-byte in UTF-8 with
uppercase hexadecimal digits. -/

def isUnreservedUriChar (c : Char) : Bool :=
  c.isAlpha || c.isDigit || c == '-' || c == '_' || c == '.' || c == '!' ||
  c == '~' || c == '*' || c == Char.ofNat 39 || c == '(' || c == ')'

def utf8Bytes (n : Nat) : List Nat :=
  if n < 128 then [n]
  else if n < 2048 then [192 + n / 64, 128 + n % 64]
  else if n < 65536 then [224 + n / 4096, 128 + (n / 64) % 64, 128 + n % 64]
  else [240 + n / 262144, 128 + (n / 4096) % 64, 128 + (n / 64) % 64, 128 + n % 64]

def hexDigitChar (n : Nat) : Char :=
  if n < 10 then Char.ofNat (48 + n) else Char.ofNat (55 + n)

def percentEncodeByte (b : Nat) : String :=
  "%" ++ String.mk [hexDigitChar (b / 16), hexDigitChar (b % 16)]

def encodeURIChar (c : Char) : String :=
  if isUnreservedUriChar c then String.mk [c]
  else String.join ((utf8Bytes c.toNat).map percentEncodeByte)

def encodeURIComponent (s : String) : String :=
  String.join (s.toList.map encodeURIChar)

/-! ### Data model (lines 14-36 of the source) -/

/-- Element type of the `claims` array of `AuthDetails`
(inline object type `\x7b typ: string, val: string \x7d` in the source). -/
structure AuthClaim where
  typ : String
  val : String
deriving Repr, DecidableEq

/-- The `AuthDetails` payload type: the `clientPrincipal` object returned by
the `/.auth/me` endpoint. -/
structure AuthDetails where
  identityProvider : String
  userId : String
  userDetails : String
  userRoles : List String
  claims : List AuthClaim
deriving Repr, DecidableEq

/-- One selectable identity provider (type `AuthProvider`). -/
structure AuthProvider where
  id : String
  label : String
  icon : String
  color : String
  textColor : String
deriving Repr, DecidableEq

/-- The `strings` field of `AuthOptions`. -/
structure AuthStrings where
  loginButton : String
  logoutButton : String
deriving Repr, DecidableEq

/-- Static configuration of the component (type `AuthOptions`). -/
structure AuthOptions where
  strings : AuthStrings
  providers : List AuthProvider
deriving Repr, DecidableEq

/-! ### Imported SVG assets

The four `import ... .svg` lines pull asset files that live outside the
`src` tree; their contents are opaque data URLs or raw SVG markup and no
claim depends on them, so they are modelled as distinct placeholder
strings. -/

def personSvg : String := "asset:person.svg"

def logoutSvg : String := "asset:logout.svg"

def microsoftSvg : String := "asset:providers/microsoft.svg"

def githubSvg : String := "asset:providers/github.svg"

/-- The `defaultOptions` constant (lines 38-52 of the source). -/
def defaultOptions : AuthOptions :=
  { strings := { loginButton := "Log in", logoutButton := "Log out" }
    providers := [
      { id := "aad", label := "Sign in with Microsoft", icon := microsoftSvg,
        color := "#00A4EF", textColor := "#fff" },
      { id := "github", label := "Sign in with GitHub", icon := githubSvg,
        color := "#181717", textColor := "#fff" },
      { id := "google", label := "Sign in with Google",
        icon := "https://cdn.simpleicons.org/google/white", color := "#4285f4", textColor := "#fff" },
      { id := "facebook", label := "Sign in with Facebook",
        icon := "https://cdn.simpleicons.org/facebook/white", color := "#0866ff", textColor := "#fff" },
      { id := "apple", label := "Sign in with Apple",
        icon := "https://cdn.simpleicons.org/apple/white", color := "#000", textColor := "#fff" },
      { id := "twitter", label := "Sign in with X",
        icon := "https://cdn.simpleicons.org/x/white", color := "#000", textColor := "#fff" },
      { id := "oidc", label := "Sign in with OpenID Connect",
        icon := "https://cdn.simpleicons.org/openid/white", color := "#333", textColor := "#fff" }
    ] }

/-! ### Component state

Reactive properties and internal state of the `AuthComponent` class.  The
`type` property is declared `AuthButtonType = status | login | logout` in
TypeScript, but the annotation is erased at runtime and the attribute can
carry any string, so the field is a `String`. -/

structure AuthComponent where
  options : AuthOptions
  type : String
  loginRedirect : String
  logoutRedirect : String
  _userDetails : Option AuthDetails
  loaded : Bool
deriving Repr, DecidableEq

/-- Field initializers of the class properties
(`options = defaultOptions`, `type = login`, `loginRedirect = /`,
`logoutRedirect = /`, `_userDetails` undefined, `loaded = false`). -/
def AuthComponent.initial : AuthComponent :=
  { options := defaultOptions
    type := "login"
    loginRedirect := "/"
    logoutRedirect := "/"
    _userDetails := none
    loaded := false }

/-- The public `userDetails` getter (lines 68-73): returns `_userDetails`. -/
def AuthComponent.userDetails (c : AuthComponent) : Option AuthDetails :=
  c._userDetails

/-! ### Browser window and the click handlers -/

/-- Browser state touched by the component: `window.location.href`. -/
structure Window where
  locationHref : String
deriving Repr, DecidableEq

/-- The `redirect` local computed by `onLoginClicked`:
the template literal built from `loginRoute`, the provider id and the
URL-encoded `loginRedirect` property. -/
def AuthComponent.loginRedirectUrl (c : AuthComponent) (provider : String) : String :=
  loginRoute ++ "/" ++ provider ++ "?post_login_redirect_uri=" ++
    encodeURIComponent c.loginRedirect

/-- The `redirect` local computed by `onLogoutClicked`. -/
def AuthComponent.logoutRedirectUrl (c : AuthComponent) : String :=
  logoutRoute ++ "?post_logout_redirect_uri=" ++ encodeURIComponent c.logoutRedirect

/-- The `onLoginClicked` method (lines 83-86): assigns the computed redirect
to `window.location.href`. -/
def AuthComponent.onLoginClicked (c : AuthComponent) (provider : String) (w : Window) : Window :=
  { w with locationHref := c.loginRedirectUrl provider }

/-- The `onLogoutClicked` method (lines 88-91). -/
def AuthComponent.onLogoutClicked (c : AuthComponent) (w : Window) : Window :=
  { w with locationHref := c.logoutRedirectUrl }

/-! ### Rendered markup

The lit-html templates are modelled by a small syntax tree.  A `@click`
handler on an element is an `ClickAction` value naming the component method the
arrow function in the template calls; `performAction` runs it.  The lit
sentinel `nothing` in a child position contributes no child node, so the
ternary in `renderStatus` is modelled by an optional suffix of the child
list. -/

inductive ClickAction where
  | loginClicked (provider : String)
  | logoutClicked
deriving Repr, DecidableEq

inductive Html where
  | text (s : String)
  | svg (content : String)
  | slot
  | element (tag : String) (attrs : List (String × String))
      (handlers : List (String × ClickAction)) (children : List Html)
deriving Repr

/-- Model of the lit `styleMap` directive on the style objects used here:
renders the keys and values as a CSS declaration list. -/
def styleMap (styles : List (String × String)) : String :=
  String.intercalate ";" (styles.map (fun kv => kv.1 ++ ":" ++ kv.2))

/-- The person-icon span at the head of the status section. -/
def statusIcon : Html :=
  Html.element "span" [("class", "login-icon")] [] [Html.svg personSvg]

/-- The fragment the `renderStatus` ternary adds when `_userDetails` is
truthy: the logged-in text and the logout button. -/
def statusUserFragment (ud : AuthDetails) : List Html :=
  [Html.element "p" [] [] [Html.text ("Logged in as " ++ ud.userDetails)],
   Html.element "button" [] [("click", ClickAction.logoutClicked)] [Html.text "Logout"]]

/-- The `renderStatus` arrow-function field (lines 99-103). -/
def AuthComponent.renderStatus (c : AuthComponent) : Html :=
  Html.element "section" [("class", "auth-status")] []
    (statusIcon ::
      match c._userDetails with
      | some ud => statusUserFragment ud
      | none => [])

/-- The login button produced for one provider by the `map` inside
`renderLogin` (lines 108-116): provider id in the click handler, brand
colors in the style map, icon and label in the children. -/
def loginButtonHtml (provider : AuthProvider) : Html :=
  Html.element "button"
    [("class", "login"),
     ("style", styleMap [("backgroundColor", provider.color), ("color", provider.textColor)])]
    [("click", ClickAction.loginClicked provider.id)]
    [Html.element "img" [("src", provider.icon), ("alt", "")] [] [],
     Html.element "span" [] [] [Html.text provider.label]]

/-- The `renderLogin` arrow-function field (lines 105-118): a slot when the
`userDetails` getter is truthy, otherwise one login button per configured
provider. -/
def AuthComponent.renderLogin (c : AuthComponent) : Html :=
  match c.userDetails with
  | some _ => Html.slot
  | none =>
      Html.element "section" [("class", "auth-login")] []
        (c.options.providers.map loginButtonHtml)

/-- The `renderLogout` arrow-function field (line 120). -/
def AuthComponent.renderLogout (_c : AuthComponent) : Html :=
  Html.element "button" [("class", "logout"), ("title", "log out")]
    [("click", ClickAction.logoutClicked)] [Html.svg logoutSvg]

/-- The `render` method (lines 122-131): a `switch` on `this.type` with
cases `status` and `logout` and a `default` returning the login branch. -/
def AuthComponent.render (c : AuthComponent) : Html :=
  if c.type = "status" then c.renderStatus
  else if c.type = "logout" then c.renderLogout
  else c.renderLogin

/-- Running a click handler of the rendered markup: the arrow functions in
the templates call `onLoginClicked` with the provider id, respectively
`onLogoutClicked`. -/
def AuthComponent.performAction (c : AuthComponent) (w : Window) : ClickAction → Window
  | ClickAction.loginClicked p => c.onLoginClicked p w
  | ClickAction.logoutClicked => c.onLogoutClicked w

/-! ### The fetch of user details

`getUserInfo` awaits `fetch(userDetailsRoute)` and `response.json()` and
returns `payload?.clientPrincipal`.  The network and the JSON parse are
outside the component; their outcome is a `FetchResult` input: `success`
carries the parsed payload (`none` models a JSON `null` body, and a
`clientPrincipal` of `none` models an absent property), `rejected` models a
rejected fetch or JSON-parse promise.  The value of the async method is an
`Option`: `none` when its promise rejects (an exception thrown before the
return), `some v` when it resolves with `v`. -/

structure MePayload where
  clientPrincipal : Option AuthDetails
deriving Repr, DecidableEq

inductive FetchResult where
  | success (payload : Option MePayload)
  | rejected
deriving Repr, DecidableEq

/-- The `getUserInfo` method (lines 93-97). -/
def getUserInfo : FetchResult → Option (Option AuthDetails)
  | FetchResult.success payload => some (payload.bind MePayload.clientPrincipal)
  | FetchResult.rejected => none

/-- Settling of the constructor (lines 75-81): the `.then` callback stores
the resolved value in `_userDetails` and sets `loaded`; when the
`getUserInfo` promise rejects the callback never runs and the rejection is
unhandled, leaving the state unchanged. -/
def AuthComponent.constructorSettle (c : AuthComponent) (r : FetchResult) : AuthComponent :=
  match getUserInfo r with
  | some ud => { c with _userDetails := ud, loaded := true }
  | none => c

/-! ### Lifetime effect trace

External effects the component can issue: the HTTP fetch of
`userDetailsRoute` and a navigation (assignment to `window.location.href`).
The constructor issues exactly the fetch; afterwards the only interactions
are renders, reads of the getter and clicks, modelled by `ComponentOp`. -/

inductive Effect where
  | fetchRequest (url : String)
  | navigation (url : String)
deriving Repr, DecidableEq

/-- Effects issued while the constructor runs: the single `fetch` call
inside `getUserInfo`. -/
def constructorEffects : List Effect :=
  [Effect.fetchRequest userDetailsRoute]

inductive ComponentOp where
  | doRender
  | doLoginClick (provider : String)
  | doLogoutClick
  | readUserDetails
deriving Repr, DecidableEq

/-- External effects of one operation: clicks navigate, rendering and
reading the getter touch nothing outside the component. -/
def AuthComponent.opEffects (c : AuthComponent) : ComponentOp → List Effect
  | ComponentOp.doRender => []
  | ComponentOp.doLoginClick p => [Effect.navigation (c.loginRedirectUrl p)]
  | ComponentOp.doLogoutClick => [Effect.navigation c.logoutRedirectUrl]
  | ComponentOp.readUserDetails => []

/-- State transition of one operation: the pair of the component state and
the window state after the operation.  None of the methods assigns to a
field of the component, so the component part is returned as received. -/
def AuthComponent.applyOp (c : AuthComponent) (w : Window) : ComponentOp → AuthComponent × Window
  | ComponentOp.doRender => (c, w)
  | ComponentOp.doLoginClick p => (c, c.onLoginClicked p w)
  | ComponentOp.doLogoutClick => (c, c.onLogoutClicked w)
  | ComponentOp.readUserDetails => (c, w)

/-- Iterated operation steps. -/
def AuthComponent.applyOps : AuthComponent → Window → List ComponentOp → AuthComponent × Window
  | c, w, [] => (c, w)
  | c, w, op :: ops =>
      let cw := c.applyOp w op
      AuthComponent.applyOps cw.1 cw.2 ops

/-- All effects of a component lifetime: construction followed by an
arbitrary sequence of operations. -/
def AuthComponent.lifetimeEffects (c : AuthComponent) (ops : List ComponentOp) : List Effect :=
  constructorEffects ++ (ops.map c.opEffects).flatten

def Effect.isFetch : Effect → Bool
  | Effect.fetchRequest _ => true
  | Effect.navigation _ => false

/-- Number of HTTP fetches in an effect trace. -/
def fetchCount (es : List Effect) : Nat :=
  es.countP Effect.isFetch

/-! ### The options attribute converter

The `options` reactive property has the attribute converter
`(value) => (\x7b ...defaultOptions, ...JSON.parse(value || (empty object
literal)) \x7d)` (lines 59-63).  Spread and merge happen on runtime
JavaScript values, so this part is modelled on a JSON value type.
`JSON.parse` itself is a platform builtin: the converter model receives the
parsed value; for a missing, `null` or empty attribute the argument of
`JSON.parse` is the two-character string of an open and a close brace,
whose parse is the empty object. -/

inductive JsValue where
  | null
  | boolean (b : Bool)
  | number (n : Int)
  | string (s : String)
  | array (items : List JsValue)
  | obj (fields : List (String × JsValue))

/-- Property read on a JSON value: defined only on objects. -/
def JsValue.getField (v : JsValue) (key : String) : Option JsValue :=
  match v with
  | JsValue.obj fs => fs.lookup key
  | _ => none

/-- Own enumerable string-keyed properties contributed by spreading a value
into an object literal: objects spread their fields, arrays and strings
spread their indexed elements, primitives spread nothing. -/
def spreadFields : JsValue → List (String × JsValue)
  | JsValue.obj fs => fs
  | JsValue.array xs => (xs.enum.map (fun p => (toString p.1, p.2)))
  | JsValue.string s => (s.toList.enum.map (fun p => (toString p.1, JsValue.string (String.mk [p.2]))))
  | _ => []

/-- Merge of two spread field lists, the second overriding the first, with
the insertion order of a JavaScript object literal: keys of the first in
order with overridden values, then the new keys of the second. -/
def mergeFields (base overlay : List (String × JsValue)) : List (String × JsValue) :=
  base.map (fun kv =>
    match overlay.lookup kv.1 with
    | some v => (kv.1, v)
    | none => kv) ++
  overlay.filter (fun kv => (base.lookup kv.1).isNone)

/-- The object literal `\x7b ...a, ...b \x7d`. -/
def jsSpread2 (a b : JsValue) : JsValue :=
  JsValue.obj (mergeFields (spreadFields a) (spreadFields b))

/-- JSON rendition of an `AuthProvider` record. -/
def AuthProvider.toJs (p : AuthProvider) : JsValue :=
  JsValue.obj [("id", JsValue.string p.id), ("label", JsValue.string p.label),
    ("icon", JsValue.string p.icon), ("color", JsValue.string p.color),
    ("textColor", JsValue.string p.textColor)]

/-- JSON rendition of the `strings` record. -/
def AuthStrings.toJs (s : AuthStrings) : JsValue :=
  JsValue.obj [("loginButton", JsValue.string s.loginButton),
    ("logoutButton", JsValue.string s.logoutButton)]

/-- JSON rendition of an `AuthOptions` record. -/
def AuthOptions.toJs (o : AuthOptions) : JsValue :=
  JsValue.obj [("strings", o.strings.toJs),
    ("providers", JsValue.array (o.providers.map AuthProvider.toJs))]

/-- The argument handed to `JSON.parse` by the converter: the attribute
string, or the empty-object literal for a missing (`null`) or empty
attribute (`value || ...`). -/
def attrValueOrDefault (value : Option String) : String :=
  match value with
  | none => "\x7b\x7d"
  | some s => if s = "" then "\x7b\x7d" else s

/-- The body of the converter after `JSON.parse`: the spread of the parsed
value over `defaultOptions`. -/
def optionsConverter (parsed : JsValue) : JsValue :=
  jsSpread2 defaultOptions.toJs parsed

/-! ### Concrete sample values used by witnesses -/

def sampleUser : AuthDetails :=
  { identityProvider := "github"
    userId := "user-1"
    userDetails := "Ada"
    userRoles := ["anonymous", "authenticated"]
    claims := [{ typ := "name", val := "Ada" }] }

def sampleStatusComponent : AuthComponent :=
  { AuthComponent.initial with
      type := "status"
      logoutRedirect := "/home"
      _userDetails := some sampleUser
      loaded := true }

def oddTypeComponent : AuthComponent :=
  { AuthComponent.initial with type := "banana" }

/-! ### Helper lemmas -/

lemma renderStatus_ne_renderLogout (c : AuthComponent) :
    c.renderStatus ≠ c.renderLogout := by
  simp [AuthComponent.renderStatus, AuthComponent.renderLogout]

lemma renderStatus_ne_renderLogin (c : AuthComponent) :
    c.renderStatus ≠ c.renderLogin := by
  unfold AuthComponent.renderStatus AuthComponent.renderLogin
  cases h : c.userDetails <;> simp

lemma renderLogout_ne_renderLogin (c : AuthComponent) :
    c.renderLogout ≠ c.renderLogin := by
  unfold AuthComponent.renderLogout AuthComponent.renderLogin
  cases h : c.userDetails <;> simp

/-- The component part of a step never changes: no method writes a field. -/
lemma applyOp_fst (c : AuthComponent) (w : Window) (op : ComponentOp) :
    (c.applyOp w op).1 = c := by
  cases op <;> rfl

/-- The component part of any operation sequence never changes. -/
lemma applyOps_fst (c : AuthComponent) (w : Window) (ops : List ComponentOp) :
    (AuthComponent.applyOps c w ops).1 = c := by
  induction ops generalizing c w with
  | nil => rfl
  | cons op ops ih =>
      show (AuthComponent.applyOps (c.applyOp w op).1 (c.applyOp w op).2 ops).1 = c
      rw [applyOp_fst c w op] at *
      exact ih c (c.applyOp w op).2

/-! ### Claims -/

/-- C1: for every provider id and every `loginRedirect` value,
`onLoginClicked` sets `window.location.href` to the platform login path of
that provider followed by the URL-encoded `post_login_redirect_uri` query
parameter. -/
theorem AuthComponent.onLoginClicked_sets_location
    (c : AuthComponent) (provider : String) (w : Window) :
    (c.onLoginClicked provider w).locationHref =
      "/.auth/login/" ++ provider ++ "?post_login_redirect_uri=" ++
        encodeURIComponent c.loginRedirect := by
  simp [AuthComponent.onLoginClicked, AuthComponent.loginRedirectUrl, loginRoute]

/-- C2: `onLogoutClicked` sets `window.location.href` to the platform
logout path with the URL-encoded `post_logout_redirect_uri` query
parameter, and the logout button rendered by the status branch carries the
click action whose performance is exactly `onLogoutClicked`. -/
theorem AuthComponent.onLogoutClicked_sets_location
    (c : AuthComponent) (w : Window) :
    (c.onLogoutClicked w).locationHref =
      "/.auth/logout?post_logout_redirect_uri=" ++ encodeURIComponent c.logoutRedirect ∧
    (∀ ud, c._userDetails = some ud →
      c.renderStatus = Html.element "section" [("class", "auth-status")] []
        [statusIcon,
         Html.element "p" [] [] [Html.text ("Logged in as " ++ ud.userDetails)],
         Html.element "button" [] [("click", ClickAction.logoutClicked)] [Html.text "Logout"]]) ∧
    c.performAction w ClickAction.logoutClicked = c.onLogoutClicked w := by
  refine ⟨?_, ?_, rfl⟩
  · simp [AuthComponent.onLogoutClicked, AuthComponent.logoutRedirectUrl, logoutRoute]
  · intro ud h
    simp [AuthComponent.renderStatus, h, statusUserFragment]

/-- Witness for C2 at a concrete logged-in component. -/
theorem AuthComponent.onLogoutClicked_sets_location_witness :
    sampleStatusComponent._userDetails = some sampleUser ∧
    (sampleStatusComponent.onLogoutClicked ⟨"about:blank"⟩).locationHref =
      "/.auth/logout?post_logout_redirect_uri=%2Fhome" ∧
    sampleStatusComponent.renderStatus =
      Html.element "section" [("class", "auth-status")] []
        [statusIcon,
         Html.element "p" [] [] [Html.text "Logged in as Ada"],
         Html.element "button" [] [("click", ClickAction.logoutClicked)] [Html.text "Logout"]] := by
  have h := AuthComponent.onLogoutClicked_sets_location sampleStatusComponent ⟨"about:blank"⟩
  exact ⟨rfl, h.1, h.2.1 sampleUser rfl⟩

/-- C3: `render` dispatches on the `type` property: the status branch
exactly for the string `status`, the logout branch exactly for `logout`,
and the login branch for every other string, valid or not. -/
theorem AuthComponent.render_dispatch (c : AuthComponent) :
    (c.render = c.renderStatus ↔ c.type = "status") ∧
    (c.render = c.renderLogout ↔ c.type = "logout") ∧
    (c.type ≠ "status" → c.type ≠ "logout" → c.render = c.renderLogin) := by
  by_cases hs : c.type = "status"
  · have hr : c.render = c.renderStatus := by simp [AuthComponent.render, hs]
    refine ⟨⟨fun _ => hs, fun _ => hr⟩, ⟨?_, ?_⟩, fun hns _ => absurd hs hns⟩
    · intro h
      exact absurd (hr.symm.trans h) (renderStatus_ne_renderLogout c)
    · intro h
      exact absurd (hs.symm.trans h) (by decide)
  · by_cases hl : c.type = "logout"
    · have hr : c.render = c.renderLogout := by simp [AuthComponent.render, hs, hl]
      refine ⟨⟨?_, fun h => absurd h hs⟩, ⟨fun _ => hl, fun _ => hr⟩, fun _ hnl => absurd hl hnl⟩
      intro h
      exact absurd (hr.symm.trans h).symm (renderStatus_ne_renderLogout c)
    · have hr : c.render = c.renderLogin := by simp [AuthComponent.render, hs, hl]
      refine ⟨⟨?_, fun h => absurd h hs⟩, ⟨?_, fun h => absurd h hl⟩, fun _ _ => hr⟩
      · intro h
        exact absurd (hr.symm.trans h).symm (renderStatus_ne_renderLogin c)
      · intro h
        exact absurd (hr.symm.trans h).symm (renderLogout_ne_renderLogin c)

/-- Witness for C3 at a component whose `type` is the invalid string
`banana`: the login branch is rendered. -/
theorem AuthComponent.render_dispatch_witness :
    oddTypeComponent.type ≠ "status" ∧ oddTypeComponent.type ≠ "logout" ∧
    oddTypeComponent.render = oddTypeComponent.renderLogin :=
  ⟨by decide, by decide,
   (AuthComponent.render_dispatch oddTypeComponent).2.2 (by decide) (by decide)⟩

/-- C4: the login branch is suppressed to a single slot when a user is
present, and otherwise renders exactly one login button per configured
provider, in order, with the provider id in the click handler and the
label, icon and brand colors of that provider. -/
theorem AuthComponent.renderLogin_branches (c : AuthComponent) :
    (∀ ud, c._userDetails = some ud → c.renderLogin = Html.slot) ∧
    (c._userDetails = none →
      c.renderLogin = Html.element "section" [("class", "auth-login")] []
        (c.options.providers.map loginButtonHtml) ∧
      (c.options.providers.map loginButtonHtml).length = c.options.providers.length) ∧
    (∀ p : AuthProvider, loginButtonHtml p =
      Html.element "button"
        [("class", "login"),
         ("style", styleMap [("backgroundColor", p.color), ("color", p.textColor)])]
        [("click", ClickAction.loginClicked p.id)]
        [Html.element "img" [("src", p.icon), ("alt", "")] [] [],
         Html.element "span" [] [] [Html.text p.label]]) := by
  refine ⟨?_, ?_, fun p => rfl⟩
  · intro ud h
    simp [AuthComponent.renderLogin, AuthComponent.userDetails, h]
  · intro h
    exact ⟨by simp [AuthComponent.renderLogin, AuthComponent.userDetails, h],
           c.options.providers.length_map loginButtonHtml⟩

/-- Witness for C4: the logged-in sample component renders just a slot, and
the initial component (no user) renders the seven default provider
buttons. -/
theorem AuthComponent.renderLogin_branches_witness :
    sampleStatusComponent._userDetails = some sampleUser ∧
    AuthComponent.initial._userDetails = none ∧
    sampleStatusComponent.renderLogin = Html.slot ∧
    AuthComponent.initial.renderLogin =
      Html.element "section" [("class", "auth-login")] []
        (AuthComponent.initial.options.providers.map loginButtonHtml) ∧
    (AuthComponent.initial.options.providers.map loginButtonHtml).length = 7 :=
  ⟨rfl, rfl,
   (AuthComponent.renderLogin_branches sampleStatusComponent).1 sampleUser rfl,
   ((AuthComponent.renderLogin_branches AuthComponent.initial).2.1 rfl).1,
   ((AuthComponent.renderLogin_branches AuthComponent.initial).2.1 rfl).2.trans rfl⟩

/-- C5: the constructor issues the single fetch of the user-details route,
and when it resolves with payload `p` the stored `_userDetails` becomes
`p?.clientPrincipal` verbatim, with every field of the principal unchanged,
and `loaded` becomes true. -/
theorem AuthComponent.constructorSettle_stores_clientPrincipal
    (c : AuthComponent) (p : Option MePayload) :
    constructorEffects = [Effect.fetchRequest "/.auth/me"] ∧
    (c.constructorSettle (FetchResult.success p))._userDetails =
      p.bind MePayload.clientPrincipal ∧
    (c.constructorSettle (FetchResult.success p)).loaded = true ∧
    (∀ q ud, p = some q → q.clientPrincipal = some ud →
      ((c.constructorSettle (FetchResult.success p))._userDetails).map
          AuthDetails.identityProvider = some ud.identityProvider ∧
      ((c.constructorSettle (FetchResult.success p))._userDetails).map
          AuthDetails.userId = some ud.userId ∧
      ((c.constructorSettle (FetchResult.success p))._userDetails).map
          AuthDetails.userDetails = some ud.userDetails ∧
      ((c.constructorSettle (FetchResult.success p))._userDetails).map
          AuthDetails.userRoles = some ud.userRoles ∧
      ((c.constructorSettle (FetchResult.success p))._userDetails).map
          AuthDetails.claims = some ud.claims) := by
  refine ⟨rfl, ?_, ?_, ?_⟩
  · simp [AuthComponent.constructorSettle, getUserInfo]
  · simp [AuthComponent.constructorSettle, getUserInfo]
  · intro q ud hq hud
    subst hq
    simp [AuthComponent.constructorSettle, getUserInfo, hud]

/-- Witness for C5 at a concrete resolved payload carrying a principal. -/
theorem AuthComponent.constructorSettle_stores_clientPrincipal_witness :
    ({ clientPrincipal := some sampleUser } : MePayload).clientPrincipal = some sampleUser ∧
    (AuthComponent.initial.constructorSettle
        (FetchResult.success (some { clientPrincipal := some sampleUser })))._userDetails =
      some sampleUser ∧
    (AuthComponent.initial.constructorSettle
        (FetchResult.success (some { clientPrincipal := some sampleUser }))).loaded = true ∧
    ((AuthComponent.initial.constructorSettle
        (FetchResult.success (some { clientPrincipal := some sampleUser })))._userDetails).map
      AuthDetails.userDetails = some "Ada" := by
  have h := AuthComponent.constructorSettle_stores_clientPrincipal
    AuthComponent.initial (some { clientPrincipal := some sampleUser })
  exact ⟨rfl, h.2.1, h.2.2.1, (h.2.2.2 _ sampleUser rfl rfl).2.2.1⟩

/-- Helper for C6: no operation after construction issues a fetch. -/
lemma opEffects_fetchCount (c : AuthComponent) (op : ComponentOp) :
    fetchCount (c.opEffects op) = 0 := by
  cases op <;> rfl

/-- C6 counterexample: a complete concrete component lifetime with several
renders, getter reads and clicks issues exactly one HTTP fetch of the
user-info endpoint, not repeated ones, so the component does not poll. -/
theorem lifetime_single_fetch_counterexample :
    fetchCount (AuthComponent.initial.lifetimeEffects
      [ComponentOp.doRender, ComponentOp.readUserDetails, ComponentOp.doRender,
       ComponentOp.doLoginClick "github", ComponentOp.doRender,
       ComponentOp.doLogoutClick, ComponentOp.doRender]) = 1 ∧
    ¬ 2 ≤ fetchCount (AuthComponent.initial.lifetimeEffects
      [ComponentOp.doRender, ComponentOp.readUserDetails, ComponentOp.doRender,
       ComponentOp.doLoginClick "github", ComponentOp.doRender,
       ComponentOp.doLogoutClick, ComponentOp.doRender]) := by
  constructor <;> decide

/-- C6 amended: over any component lifetime the user-info endpoint is
fetched exactly once, by the constructor; no operation afterwards fetches
again. -/
theorem AuthComponent.lifetimeEffects_single_fetch
    (c : AuthComponent) (ops : List ComponentOp) :
    fetchCount (c.lifetimeEffects ops) = 1 := by
  unfold AuthComponent.lifetimeEffects fetchCount
  rw [List.countP_append]
  have h : ∀ l : List ComponentOp,
      (List.map c.opEffects l).flatten.countP Effect.isFetch = 0 := by
    intro l
    induction l with
    | nil => rfl
    | cons op rest ih =>
        rw [List.map_cons, List.flatten_cons, List.countP_append, ih]
        have h0 := opEffects_fetchCount c op
        unfold fetchCount at h0
        rw [h0]
  rw [h]
  rfl

/-- C7: after `_userDetails` is assigned by the settled constructor, no
subsequent operation of the component (renders, getter reads, login or
logout clicks) changes `_userDetails`, and the public getter returns it
unchanged. -/
theorem AuthComponent.userDetails_readonly
    (c : AuthComponent) (r : FetchResult) (w : Window) (ops : List ComponentOp) :
    ((c.constructorSettle r).applyOps w ops).1._userDetails =
      (c.constructorSettle r)._userDetails ∧
    ((c.constructorSettle r).applyOps w ops).1.userDetails =
      (c.constructorSettle r)._userDetails ∧
    (c.constructorSettle r).userDetails = (c.constructorSettle r)._userDetails := by
  rw [applyOps_fst]
  exact ⟨rfl, rfl, rfl⟩

/-- C8: the options converter is the shallow spread of the parsed attribute
over `defaultOptions`: a missing, null or empty attribute parses the
empty-object literal and yields exactly the defaults, while a payload with
a partial top-level `strings` object replaces that whole key, losing the
default `logoutButton` string. -/
theorem optionsConverter_shallow_merge :
    (∀ j : JsValue, optionsConverter j = jsSpread2 defaultOptions.toJs j) ∧
    attrValueOrDefault none = "\x7b\x7d" ∧
    attrValueOrDefault (some "") = "\x7b\x7d" ∧
    (∀ v : String, v ≠ "" → attrValueOrDefault (some v) = v) ∧
    optionsConverter (JsValue.obj []) = defaultOptions.toJs ∧
    (optionsConverter
        (JsValue.obj [("strings", JsValue.obj [("loginButton", JsValue.string "Hello")])])).getField
      "strings" = some (JsValue.obj [("loginButton", JsValue.string "Hello")]) ∧
    ((optionsConverter
        (JsValue.obj [("strings", JsValue.obj [("loginButton", JsValue.string "Hello")])])).getField
      "strings").bind (fun v => v.getField "logoutButton") = none ∧
    (defaultOptions.toJs.getField "strings").bind (fun v => v.getField "logoutButton") =
      some (JsValue.string "Log out") := by
  refine ⟨fun j => rfl, rfl, rfl, ?_, rfl, rfl, rfl, rfl⟩
  intro v hv
  simp [attrValueOrDefault, hv]

/-- Witness for C8 at a concrete nonempty attribute string. -/
theorem optionsConverter_shallow_merge_witness :
    "[1]" ≠ "" ∧ attrValueOrDefault (some "[1]") = "[1]" :=
  ⟨by decide, optionsConverter_shallow_merge.2.2.2.1 "[1]" (by decide)⟩

/-- C9: a resolved payload that is null or lacks a `clientPrincipal`
resolves `getUserInfo` with undefined, after which the component is loaded
and renders logged-out, while a rejected fetch or JSON parse leaves the
state untouched for the rest of the lifetime: `_userDetails` undefined and
`loaded` false. -/
theorem getUserInfo_error_handling :
    getUserInfo (FetchResult.success none) = some none ∧
    (∀ (p : Option MePayload) (c : AuthComponent),
      p.bind MePayload.clientPrincipal = none →
        (c.constructorSettle (FetchResult.success p))._userDetails = none ∧
        (c.constructorSettle (FetchResult.success p)).loaded = true ∧
        (c.constructorSettle (FetchResult.success p)).renderLogin =
          Html.element "section" [("class", "auth-login")] []
            (c.options.providers.map loginButtonHtml)) ∧
    getUserInfo FetchResult.rejected = none ∧
    (∀ c : AuthComponent, c.constructorSettle FetchResult.rejected = c) ∧
    (AuthComponent.initial.constructorSettle FetchResult.rejected)._userDetails = none ∧
    (AuthComponent.initial.constructorSettle FetchResult.rejected).loaded = false ∧
    (∀ (w : Window) (ops : List ComponentOp),
      ((AuthComponent.initial.constructorSettle FetchResult.rejected).applyOps w ops).1.loaded
        = false ∧
      ((AuthComponent.initial.constructorSettle FetchResult.rejected).applyOps w
        ops).1._userDetails = none) := by
  refine ⟨rfl, ?_, rfl, fun c => rfl, rfl, rfl, ?_⟩
  · intro p c hp
    refine ⟨?_, ?_, ?_⟩
    · simp [AuthComponent.constructorSettle, getUserInfo, hp]
    · simp [AuthComponent.constructorSettle, getUserInfo]
    · have h : (c.constructorSettle (FetchResult.success p))._userDetails = none := by
        simp [AuthComponent.constructorSettle, getUserInfo, hp]
      have hopts : (c.constructorSettle (FetchResult.success p)).options = c.options := by
        simp [AuthComponent.constructorSettle, getUserInfo]
      rw [AuthComponent.renderLogin, AuthComponent.userDetails, h, hopts]
  · intro w ops
    rw [applyOps_fst]
    exact ⟨rfl, rfl⟩

/-- Witness for C9 at a concrete payload with an absent principal. -/
theorem getUserInfo_error_handling_witness :
    (some ({ clientPrincipal := none } : MePayload)).bind MePayload.clientPrincipal = none ∧
    (AuthComponent.initial.constructorSettle
        (FetchResult.success (some { clientPrincipal := none })))._userDetails = none ∧
    (AuthComponent.initial.constructorSettle
        (FetchResult.success (some { clientPrincipal := none }))).loaded = true ∧
    (AuthComponent.initial.constructorSettle
        (FetchResult.success (some { clientPrincipal := none }))).renderLogin =
      Html.element "section" [("class", "auth-login")] []
        (AuthComponent.initial.options.providers.map loginButtonHtml) := by
  have h := getUserInfo_error_handling.2.1 (some { clientPrincipal := none })
    AuthComponent.initial rfl
  exact ⟨rfl, h.1, h.2.1, h.2.2⟩

/-- C10: the status branch shows only the person icon when no user is
present, and shows the person icon, the logged-in text and the logout
button exactly when a user is present. -/
theorem AuthComponent.renderStatus_branches (c : AuthComponent) :
    (c._userDetails = none →
      c.renderStatus = Html.element "section" [("class", "auth-status")] [] [statusIcon]) ∧
    (∀ ud, c._userDetails = some ud →
      c.renderStatus = Html.element "section" [("class", "auth-status")] []
        (statusIcon :: statusUserFragment ud)) ∧
    (∀ ud : AuthDetails, statusUserFragment ud =
      [Html.element "p" [] [] [Html.text ("Logged in as " ++ ud.userDetails)],
       Html.element "button" [] [("click", ClickAction.logoutClicked)] [Html.text "Logout"]]) := by
  refine ⟨?_, ?_, fun ud => rfl⟩
  · intro h
    simp [AuthComponent.renderStatus, h]
  · intro ud h
    simp [AuthComponent.renderStatus, h]

/-- Witness for C10 at the logged-out initial component and the logged-in
sample component. -/
theorem AuthComponent.renderStatus_branches_witness :
    AuthComponent.initial._userDetails = none ∧
    sampleStatusComponent._userDetails = some sampleUser ∧
    AuthComponent.initial.renderStatus =
      Html.element "section" [("class", "auth-status")] [] [statusIcon] ∧
    sampleStatusComponent.renderStatus =
      Html.element "section" [("class", "auth-status")] []
        (statusIcon :: statusUserFragment sampleUser) :=
  ⟨rfl, rfl,
   (AuthComponent.renderStatus_branches AuthComponent.initial).1 rfl,
   (AuthComponent.renderStatus_branches sampleStatusComponent).2.1 sampleUser rfl⟩
